import Mathlib

set_option maxHeartbeats 1000000
set_option linter.unusedVariables false

/-! Shallow embedding of backend/main.py: the /talk handler of the
mobile backend, its helper functions, its startup credential handling
and its error mapping. External dependency calls (Whisper
transcription, Hugging Face chat completion, ElevenLabs text-to-speech)
are modelled by a per-request oracle describing the outcome each call
would have; the handler itself is translated line by line. -/

/-- A JSON value, distinguished only as far as read_body_text (main.py
lines 200-206) distinguishes them: a string, or any non-string value. -/
inductive JVal where
  | str (s : String)
  | other
deriving DecidableEq

/-- An uploaded audio file (the FastAPI UploadFile parameter). -/
structure AudioUpload where
  filename : Option String
  content : List Nat
deriving DecidableEq

/-- The inbound /talk request as the handler sees it: the content-type
header, the parsed JSON body (none when the body is not a well-formed
JSON object), the multipart form fields (string-valued), the optional
audio upload, and the FastAPI Body parameters text, language,
system_prompt and voice (main.py lines 218-224). -/
structure TalkRequest where
  contentTypeHeader : Option String
  jsonBody : Option (List (String × JVal))
  form : List (String × String)
  audio : Option AudioUpload
  textParam : Option String
  languageParam : Option String
  systemPromptParam : Option String
  voiceParam : Option String
deriving DecidableEq

/-- Outcome of whisper_model.transcribe: a result whose text field may
be absent, or a raised exception. Whisper runs locally, so its failures
are plain exceptions, not HTTP errors. -/
inductive SttResult where
  | ok (whisperText : Option String)
  | exn
deriving DecidableEq

/-- Outcome of hf_client.chat_completion: an answer string, a
requests.HTTPError carrying an optional response status code, a timeout
exception, or any other exception. Timeout exceptions raised by the
requests stack are not HTTPError subclasses, so the handler's
`except requests.HTTPError` clause does not catch them. -/
inductive LlmResult where
  | ok (answer : String)
  | httpError (status : Option Nat)
  | timeout
  | exn
deriving DecidableEq

/-- Outcome of requests.post to ElevenLabs: a completed HTTP exchange
with a status code and body bytes, a requests.Timeout, or any other
exception. -/
inductive TtsResult where
  | response (status : Nat) (content : List Nat)
  | timeout
  | exn
deriving DecidableEq

/-- Per-request oracle: the outcome each dependency call would have if
invoked, whether os.remove on the temporary file would succeed, and the
request id that secrets.token_hex(4) produced. -/
structure Deps where
  stt : SttResult
  llm : LlmResult
  tts : TtsResult
  removeOk : Bool
  requestId : String
deriving DecidableEq

/-- Process-wide configuration read at startup (main.py lines 106-108). -/
structure Config where
  hfToken : Option String
  elevenKey : Option String
  voiceId : String
deriving DecidableEq

/-- The non-interactive path of _ensure_env (main.py lines 79-103): a
present, non-empty value is kept; an absent or empty value stays
missing (stdin is not a tty, so no prompt happens) and the process
still starts. -/
def ensureEnv (current : Option String) : Option String :=
  match current with
  | some s => if s = "" then none else some s
  | none => none

/-- Startup configuration (main.py lines 106-108): credentials through
_ensure_env, VOICE_ID from the environment with a hard-coded default.
Startup is total: missing credentials do not stop the process. -/
def startup (hfEnv elevenEnv voiceEnv : Option String) : Config :=
  { hfToken := ensureEnv hfEnv,
    elevenKey := ensureEnv elevenEnv,
    voiceId := voiceEnv.getD "EXAVITQu4vr4xnSDxMaL" }

/-- The warnings logged at startup for missing credentials (main.py
lines 110-113). -/
def startupWarnings (cfg : Config) : List String :=
  (if cfg.hfToken.isNone then ["HF_API_TOKEN missing; LLM calls will fail"] else []) ++
  (if cfg.elevenKey.isNone then ["ELEVENLABS_API_KEY missing; TTS will fail"] else [])

/-- The exception kinds the handler's except clauses distinguish
(main.py lines 310-319): FastAPI HTTPException with a status and
detail, requests.HTTPError with an optional response status, a timeout
exception, and any other exception. -/
inductive PyErr where
  | httpException (status : Nat) (detail : String)
  | requestsHttpError (status : Option Nat)
  | timeoutErr
  | otherExn
deriving DecidableEq

/-- The HTTP response the service sends for /talk: a 200 JSON envelope
given as an ordered field list, or a structured error with a status and
detail (rendered by http_exception_handler, main.py lines 328-339, as
an error/request_id JSON object; no exception object ever reaches the
caller). -/
inductive Response where
  | success (body : List (String × String))
  | error (status : Nat) (detail : String)
deriving DecidableEq

/-- The HTTP status code of a response. -/
def Response.status : Response → Nat
  | .success _ => 200
  | .error s _ => s

/-- Python str.lower, character by character (content types here are
ASCII). -/
def pyLower (s : String) : String := String.mk (s.data.map Char.toLower)

/-- Python str.strip with no argument: whitespace removed from both
ends. -/
def pyStrip (s : String) : String :=
  String.mk (((s.data.dropWhile Char.isWhitespace).reverse.dropWhile Char.isWhitespace).reverse)

/-- Whether the character-list pat is an initial segment of cs. -/
def beginsWith : List Char → List Char → Bool
  | [], _ => true
  | _ :: _, [] => false
  | p :: ps, c :: cs => p == c && beginsWith ps cs

/-- Whether the character-list pat occurs inside the second list. -/
def hasSubChars (pat : List Char) : List Char → Bool
  | [] => beginsWith pat []
  | c :: cs => beginsWith pat (c :: cs) || hasSubChars pat cs

/-- Python `pat in hay` on strings: substring containment. -/
def containsSubstr (hay pat : String) : Bool :=
  hasSubChars pat.data hay.data

/-- Python `a or b` on optional strings: None and the empty string are
falsy. -/
def pyOrS (a b : Option String) : Option String :=
  match a with
  | some s => if s = "" then b else some s
  | none => b

/-- Python `value.strip() or None`: the stripped string when non-empty,
else None. -/
def stripOrNone (s : String) : Option String :=
  if pyStrip s = "" then none else some (pyStrip s)

/-- Python truthiness of an optional string (`if not user_text`):
None and the empty string are falsy. -/
def pyTruthyOpt : Option String → Bool
  | none => false
  | some s => s != ""

/-- read_body_text (main.py lines 200-206): only string values of a
dict payload count, and they are stripped; empty after stripping means
absent. -/
def read_body_text (payload : Option (List (String × JVal))) (key : String) : Option String :=
  match payload with
  | none => none
  | some d =>
    match d.lookup key with
    | some (JVal.str s) => stripOrNone s
    | some JVal.other => none
    | none => none

/-- Standard base64 of a byte list, as base64.b64encode (main.py line
292) computes it: 3 bytes to 4 alphabet characters with `=` padding. -/
def b64Char (n : Nat) : Char :=
  "ABCDEFGHIJKLMNOPQRSTUVWXYZabcdefghijklmnopqrstuvwxyz0123456789+/".toList.getD n 'A'

/-- Base64 encoding of a byte sequence (each entry taken mod 256). -/
def base64encode : List Nat → String
  | [] => ""
  | [b1] =>
    String.mk [b64Char ((b1 % 256) / 4), b64Char ((b1 % 4) * 16), '=', '=']
  | [b1, b2] =>
    String.mk [b64Char ((b1 % 256) / 4), b64Char ((b1 % 4) * 16 + (b2 % 256) / 16),
               b64Char ((b2 % 16) * 4), '=']
  | b1 :: b2 :: b3 :: rest =>
    String.mk [b64Char ((b1 % 256) / 4), b64Char ((b1 % 4) * 16 + (b2 % 256) / 16),
               b64Char ((b2 % 16) * 4 + (b3 % 256) / 64), b64Char (b3 % 64)] ++
    base64encode rest

/-- stt_local (main.py lines 136-143): transcribe the temp file and
strip the text field of the result, `(result.get("text") or "").strip()`. -/
def stt_local (dep : Deps) : Except PyErr String :=
  match dep.stt with
  | .ok whisperText => .ok (pyStrip (whisperText.getD ""))
  | .exn => .error .otherExn

/-- ask_llm (main.py lines 146-167): one chat completion with the fixed
empathetic system message; the oracle decides the outcome. The prompt
argument is recorded by the caller's trace. -/
def ask_llm (dep : Deps) (prompt : String) : Except PyErr String :=
  match dep.llm with
  | .ok answer => .ok answer
  | .httpError st => .error (.requestsHttpError st)
  | .timeout => .error .timeoutErr
  | .exn => .error .otherExn

/-- tts_elevenlabs (main.py lines 170-197): POST to ElevenLabs with the
chosen voice (`voice_id or VOICE_ID`); response.raise_for_status turns
a 4xx/5xx status into an HTTPException carrying that upstream status
and a detail naming ElevenLabs; otherwise the body bytes are returned.
The API key (empty string when missing) is sent in a header and does
not short-circuit the call locally. -/
def tts_elevenlabs (cfg : Config) (dep : Deps) (text : String)
    (voiceArg : Option String) : Except PyErr (List Nat) :=
  match dep.tts with
  | .response status content =>
    if 400 ≤ status ∧ status < 600 then
      .error (.httpException status ("ElevenLabs error: " ++ toString status))
    else .ok content
  | .timeout => .error .timeoutErr
  | .exn => .error .otherExn

/-- Observable events of one handler run: which adapters were invoked
and with which arguments, the temp-file lifecycle, and the logged
language/system_prompt form fields. -/
structure Trace where
  sttCalled : Bool
  llmPrompt : Option String
  ttsArgs : Option (String × Option String)
  tmpCreated : Bool
  tmpRemoveAttempted : Bool
  removeWarningLogged : Bool
  formLanguage : Option String
  formSystemPrompt : Option String
deriving DecidableEq

/-- The trace at handler entry, after normalization recorded the
language and system_prompt fields. -/
def initTrace (fl fsp : Option String) : Trace :=
  { sttCalled := false, llmPrompt := none, ttsArgs := none,
    tmpCreated := false, tmpRemoveAttempted := false, removeWarningLogged := false,
    formLanguage := fl, formSystemPrompt := fsp }

/-- The lowercased content-type header (main.py line 234):
`request.headers.get("content-type", "").lower()`. -/
def contentTypeOf (req : TalkRequest) : String :=
  pyLower (req.contentTypeHeader.getD "")

/-- The initial chosen voice (main.py line 239): the stripped voice
Body parameter, `(voice or "").strip() or None`. -/
def voiceParam0 (req : TalkRequest) : Option String :=
  stripOrNone (req.voiceParam.getD "")

/-- Content-type dispatch and field extraction (main.py lines 234-260):
JSON fields via read_body_text, multipart form fields through the
`(... or "").strip() or None` idiom, any other non-empty content type
rejected with a 415 HTTPException, and an absent content type accepted
with no fields. Returns (user_text, chosen_voice, form_language,
form_system_prompt). -/
def normalizeInput (req : TalkRequest) :
    Except PyErr (Option String × Option String × Option String × Option String) :=
  if containsSubstr (contentTypeOf req) "application/json" then
    .ok (pyOrS (read_body_text req.jsonBody "text") (read_body_text req.jsonBody "prompt"),
         pyOrS (voiceParam0 req) (read_body_text req.jsonBody "voice"),
         read_body_text req.jsonBody "language",
         read_body_text req.jsonBody "system_prompt")
  else if containsSubstr (contentTypeOf req) "multipart/form-data" then
    .ok (stripOrNone ((pyOrS (req.form.lookup "text") (req.form.lookup "prompt")).getD ""),
         pyOrS (voiceParam0 req) (stripOrNone ((req.form.lookup "voice").getD "")),
         stripOrNone ((req.form.lookup "language").getD ""),
         stripOrNone ((req.form.lookup "system_prompt").getD ""))
  else if contentTypeOf req ≠ "" then
    .error (.httpException 415 "Unsupported content type")
  else
    .ok (none, voiceParam0 req, none, none)

/-- Pipeline steps after the utterance is fixed (main.py lines
281-308): missing-utterance check, LLM reply, TTS synthesis, and the
success JSON envelope with exactly request_id, text, audio_base64 and
audio_format fields. -/
def pipeline (cfg : Config) (dep : Deps) (user_text chosen_voice : Option String)
    (tr : Trace) : Except PyErr Response × Trace :=
  if pyTruthyOpt user_text = false then
    (.error (.httpException 400 "Provide either text or audio input"), tr)
  else
    match ask_llm dep (user_text.getD "") with
    | .error e => (.error e, { tr with llmPrompt := some (user_text.getD "") })
    | .ok reply_text =>
      match tts_elevenlabs cfg dep reply_text chosen_voice with
      | .error e =>
        (.error e, { tr with llmPrompt := some (user_text.getD ""),
                             ttsArgs := some (reply_text, chosen_voice) })
      | .ok mp3 =>
        (.ok (.success [("request_id", dep.requestId), ("text", reply_text),
                        ("audio_base64", base64encode mp3), ("audio_format", "mp3")]),
         { tr with llmPrompt := some (user_text.getD ""),
                   ttsArgs := some (reply_text, chosen_voice) })

/-- The audio / inline-text arbitration (main.py lines 267-279): with
an upload present the temp file is written first, then transcription
runs only when no inline text was supplied; with no upload and no
parsed text, the raw `text` Body parameter is the fallback. -/
def resolveUtterance (cfg : Config) (req : TalkRequest) (dep : Deps)
    (user_text0 chosen_voice : Option String) (tr : Trace) :
    Except PyErr Response × Trace :=
  match req.audio with
  | some _ =>
    if pyTruthyOpt user_text0 then
      pipeline cfg dep user_text0 chosen_voice { tr with tmpCreated := true }
    else
      match stt_local dep with
      | .ok t =>
        pipeline cfg dep (some t) chosen_voice
          { tr with tmpCreated := true, sttCalled := true }
      | .error e => (.error e, { tr with tmpCreated := true, sttCalled := true })
  | none =>
    match user_text0 with
    | none => pipeline cfg dep (stripOrNone (req.textParam.getD "")) chosen_voice tr
    | some t => pipeline cfg dep (some t) chosen_voice tr

/-- The try-block of the handler: normalization then the pipeline. -/
def talkRun (cfg : Config) (req : TalkRequest) (dep : Deps) :
    Except PyErr Response × Trace :=
  match normalizeInput req with
  | .error e => (.error e, initTrace none none)
  | .ok (ut, cv, fl, fsp) => resolveUtterance cfg req dep ut cv (initTrace fl fsp)

/-- Status selection for requests.HTTPError (main.py line 314):
`getattr(http_err.response, "status_code", 502) or 502`. -/
def effStatus : Option Nat → Nat
  | some n => if n = 0 then 502 else n
  | none => 502

/-- Rendering of str(http_err) used as the detail on the
requests.HTTPError path (main.py line 316), abstracted as a message
that mentions the upstream status when one is present. -/
def upstreamDetail : Option Nat → String
  | some n => "upstream HTTP error " ++ toString n
  | none => "upstream HTTP error"

/-- The except clauses of the handler (main.py lines 310-319):
HTTPException passes through, requests.HTTPError forwards the upstream
status (502 fallback), every other exception becomes a 500 with a
generic detail. -/
def mapErr : Except PyErr Response → Response
  | .ok r => r
  | .error (.httpException st d) => .error st d
  | .error (.requestsHttpError st) => .error (effStatus st) (upstreamDetail st)
  | .error .timeoutErr => .error 500 "Internal server error"
  | .error .otherExn => .error 500 "Internal server error"

/-- The whole /talk handler (main.py lines 217-325): try-block, except
clauses, and the finally-block that attempts to delete the temp file
exactly when one was created, logging (never failing) when the deletion
itself fails. -/
def talk (cfg : Config) (req : TalkRequest) (dep : Deps) : Response × Trace :=
  (mapErr (talkRun cfg req dep).1,
   { (talkRun cfg req dep).2 with
       tmpRemoveAttempted := (talkRun cfg req dep).2.tmpCreated,
       removeWarningLogged := (talkRun cfg req dep).2.tmpCreated && !dep.removeOk })

/-! Concrete sample configurations, oracles and requests used to
instantiate the theorems below on closed inputs. -/

def sampleCfg : Config := startup (some "hf-token") (some "eleven-key") none

def sampleCfgNoTtsKey : Config := startup (some "hf-token") none none

def sampleDepOk : Deps :=
  { stt := .ok (some " hei "), llm := .ok "Hi there!",
    tts := .response 200 [1, 2], removeOk := true, requestId := "abcd1234" }

def sampleDepLlmTimeout : Deps :=
  { stt := .ok (some " hei "), llm := .timeout,
    tts := .response 200 [1, 2], removeOk := true, requestId := "abcd1234" }

def sampleDepLlm502 : Deps :=
  { stt := .ok (some " hei "), llm := .httpError none,
    tts := .response 200 [1, 2], removeOk := true, requestId := "abcd1234" }

def sampleDepTts401 : Deps :=
  { stt := .ok (some " hei "), llm := .ok "Hi there!",
    tts := .response 401 [], removeOk := true, requestId := "abcd1234" }

def sampleReqJsonHello : TalkRequest :=
  { contentTypeHeader := some "application/json",
    jsonBody := some [("text", .str "Hello")],
    form := [], audio := none, textParam := some "Hello",
    languageParam := none, systemPromptParam := none, voiceParam := none }

def sampleReqJsonMalformed : TalkRequest :=
  { contentTypeHeader := some "application/json",
    jsonBody := none, form := [], audio := none, textParam := none,
    languageParam := none, systemPromptParam := none, voiceParam := none }

def sampleReqFormUrlencoded : TalkRequest :=
  { contentTypeHeader := some "application/x-www-form-urlencoded",
    jsonBody := none, form := [("text", "Hello")], audio := none,
    textParam := some "Hello", languageParam := none,
    systemPromptParam := none, voiceParam := none }

def sampleAudio : AudioUpload := { filename := some "clip.m4a", content := [9, 8, 7] }

def sampleReqMultipartInlineAndAudio : TalkRequest :=
  { contentTypeHeader := some "multipart/form-data; boundary=x",
    jsonBody := none, form := [("text", "Hello")], audio := some sampleAudio,
    textParam := none, languageParam := none,
    systemPromptParam := none, voiceParam := none }

def sampleReqMultipartAudioOnly : TalkRequest :=
  { contentTypeHeader := some "multipart/form-data; boundary=x",
    jsonBody := none, form := [], audio := some sampleAudio,
    textParam := none, languageParam := none,
    systemPromptParam := none, voiceParam := none }

def sampleReqMultipartEmpty : TalkRequest :=
  { contentTypeHeader := some "multipart/form-data; boundary=x",
    jsonBody := none, form := [], audio := none,
    textParam := none, languageParam := none,
    systemPromptParam := none, voiceParam := none }

def sampleReqMultipartWsTextPrompt : TalkRequest :=
  { contentTypeHeader := some "multipart/form-data; boundary=x",
    jsonBody := none, form := [("text", " "), ("prompt", "hello")], audio := none,
    textParam := none, languageParam := none,
    systemPromptParam := none, voiceParam := none }

def sampleReqMultipartPromptOnly : TalkRequest :=
  { contentTypeHeader := some "multipart/form-data; boundary=x",
    jsonBody := none, form := [("prompt", "hello")], audio := none,
    textParam := none, languageParam := none,
    systemPromptParam := none, voiceParam := none }
theorem stripOrNone_ne_empty {s t : String} (h : stripOrNone s = some t) : t ≠ "" := by
  by_cases hc : pyStrip s = ""
  · simp [stripOrNone, hc] at h
  · simp [stripOrNone, hc] at h
    exact h ▸ hc

theorem read_body_text_ne_empty {p : Option (List (String × JVal))} {k t : String}
    (h : read_body_text p k = some t) : t ≠ "" := by
  cases p with
  | none => simp [read_body_text] at h
  | some d =>
    rcases hl : d.lookup k with _ | v
    · simp [read_body_text, hl] at h
    · cases v with
      | str s =>
        simp [read_body_text, hl] at h
        exact stripOrNone_ne_empty h
      | other => simp [read_body_text, hl] at h

theorem pyOrS_eq_some {a b : Option String} {t : String} (h : pyOrS a b = some t) :
    a = some t ∨ b = some t := by
  cases a with
  | none => exact Or.inr (by simpa [pyOrS] using h)
  | some s =>
    by_cases hs : s = ""
    · exact Or.inr (by simpa [pyOrS, hs] using h)
    · refine Or.inl ?h
      simp only [pyOrS, hs, if_false] at h
      exact h

theorem normalizeInput_ut_ne_empty {req : TalkRequest} {t : String}
    {cv fl fsp : Option String}
    (h : normalizeInput req = .ok (some t, cv, fl, fsp)) : t ≠ "" := by
  unfold normalizeInput at h
  split at h
  · simp only [Except.ok.injEq, Prod.mk.injEq] at h
    rcases pyOrS_eq_some h.1 with h1 | h1 <;> exact read_body_text_ne_empty h1
  · split at h
    · simp only [Except.ok.injEq, Prod.mk.injEq] at h
      exact stripOrNone_ne_empty h.1
    · split at h
      · simp at h
      · simp at h

theorem stripOrNone_empty : stripOrNone "" = none := by decide

/-- Claim C2: for every request that supplies non-empty inline text in
a JSON body or a form field, the transcription adapter is never invoked
and the inline text is the utterance handed to the reply stage, even
when an audio file is also present. -/
theorem inline_text_skips_stt (cfg : Config) (req : TalkRequest) (dep : Deps)
    (t : String) (cv fl fsp : Option String)
    (h : normalizeInput req = .ok (some t, cv, fl, fsp)) :
    (talk cfg req dep).2.sttCalled = false ∧
    (talk cfg req dep).2.llmPrompt = some t := by
  have hne : t ≠ "" := normalizeInput_ut_ne_empty h
  rcases haud : req.audio with _ | a <;>
  rcases hllm : dep.llm with r | st | _ | _ <;>
  rcases htts : dep.tts with ⟨st2, c⟩ | _ | _ <;>
  simp [talk, talkRun, h, resolveUtterance, haud, pipeline, pyTruthyOpt, hne,
        ask_llm, hllm, tts_elevenlabs, htts, initTrace, mapErr] <;>
  try (split <;> simp)

/-- Claim C2 witness: a multipart request carrying both an inline text
field and an audio upload never calls transcription and uses the inline
text. -/
theorem inline_text_skips_stt_witness :
    (talk sampleCfg sampleReqMultipartInlineAndAudio sampleDepOk).2.sttCalled = false ∧
    (talk sampleCfg sampleReqMultipartInlineAndAudio sampleDepOk).2.llmPrompt = some "Hello" :=
  inline_text_skips_stt sampleCfg sampleReqMultipartInlineAndAudio sampleDepOk
    "Hello" none none none rfl

/-- Claim C3: when no utterance can be derived (no inline text and no
audio, or audio whose transcription is empty after trimming and no
inline text), the handler answers 400 with the missing-input detail and
neither the reply-generation nor the speech-synthesis adapter is
invoked. -/
theorem missing_input_short_circuit (cfg : Config) (req : TalkRequest) (dep : Deps)
    (cv fl fsp : Option String) (w : Option String)
    (h : normalizeInput req = .ok (none, cv, fl, fsp))
    (hcase : (req.audio = none ∧ stripOrNone (req.textParam.getD "") = none) ∨
             (req.audio ≠ none ∧ dep.stt = .ok w ∧ pyStrip (w.getD "") = "")) :
    (talk cfg req dep).1 = .error 400 "Provide either text or audio input" ∧
    (talk cfg req dep).2.llmPrompt = none ∧
    (talk cfg req dep).2.ttsArgs = none := by
  rcases hcase with ⟨haud, htext⟩ | ⟨haud, hstt, hw⟩
  · simp [talk, talkRun, h, resolveUtterance, haud, htext, pipeline, pyTruthyOpt,
          initTrace, mapErr]
  · rcases ha : req.audio with _ | a
    · exact absurd ha haud
    · simp [talk, talkRun, h, resolveUtterance, ha, stt_local, hstt, hw, pipeline,
            pyTruthyOpt, initTrace, mapErr]

/-- Claim C3 witness: a multipart request with audio whose
transcription comes back as pure whitespace is answered 400 and no
reply or synthesis call happens. -/
theorem missing_input_short_circuit_witness :
    (talk sampleCfg sampleReqMultipartAudioOnly
        { stt := .ok (some "  "), llm := .ok "Hi there!", tts := .response 200 [1, 2],
          removeOk := true, requestId := "abcd1234" }).1 =
      .error 400 "Provide either text or audio input" ∧
    (talk sampleCfg sampleReqMultipartAudioOnly
        { stt := .ok (some "  "), llm := .ok "Hi there!", tts := .response 200 [1, 2],
          removeOk := true, requestId := "abcd1234" }).2.llmPrompt = none ∧
    (talk sampleCfg sampleReqMultipartAudioOnly
        { stt := .ok (some "  "), llm := .ok "Hi there!", tts := .response 200 [1, 2],
          removeOk := true, requestId := "abcd1234" }).2.ttsArgs = none :=
  missing_input_short_circuit sampleCfg sampleReqMultipartAudioOnly
    { stt := .ok (some "  "), llm := .ok "Hi there!", tts := .response 200 [1, 2],
      removeOk := true, requestId := "abcd1234" }
    none none none (some "  ") rfl
    (Or.inr ⟨by decide, rfl, by decide⟩)

/-- Claim C8: a request whose content type is application/json but
whose body is not well-formed JSON (so the parsed payload and the Body
parameters are all absent) is answered with status 400. -/
theorem malformed_json_yields_400 (cfg : Config) (req : TalkRequest) (dep : Deps)
    (hct : containsSubstr (contentTypeOf req) "application/json" = true)
    (hbody : req.jsonBody = none)
    (haud : req.audio = none)
    (htp : req.textParam = none) :
    (talk cfg req dep).1 = .error 400 "Provide either text or audio input" := by
  simp [talk, talkRun, normalizeInput, hct, hbody, read_body_text, pyOrS,
        resolveUtterance, haud, htp, stripOrNone_empty, pipeline, pyTruthyOpt,
        initTrace, mapErr]

/-- Claim C8 witness: the malformed-JSON sample request is answered
with the 400 missing-input error. -/
theorem malformed_json_yields_400_witness :
    (talk sampleCfg sampleReqJsonMalformed sampleDepOk).1 =
      .error 400 "Provide either text or audio input" :=
  malformed_json_yields_400 sampleCfg sampleReqJsonMalformed sampleDepOk
    (by decide) rfl rfl rfl
theorem mapErr_success {x : Except PyErr Response} {body : List (String × String)}
    (h : mapErr x = .success body) : x = .ok (.success body) := by
  rcases x with e | r
  · cases e <;> simp [mapErr] at h
  · simp [mapErr] at h
    rw [h]

theorem pipeline_success {cfg : Config} {dep : Deps} {ut cv : Option String}
    {tr : Trace} {r : Response}
    (h : (pipeline cfg dep ut cv tr).1 = .ok r) :
    ∃ reply st mp3, dep.llm = .ok reply ∧ dep.tts = .response st mp3 ∧
      ¬(400 ≤ st ∧ st < 600) ∧
      r = .success [("request_id", dep.requestId), ("text", reply),
                    ("audio_base64", base64encode mp3), ("audio_format", "mp3")] := by
  unfold pipeline at h
  split at h
  · simp at h
  · rcases hllm : dep.llm with reply | st | _ | _ <;>
    simp [ask_llm, hllm] at h
    rcases htts : dep.tts with ⟨st2, c⟩ | _ | _ <;>
    simp [tts_elevenlabs, htts] at h
    by_cases hc : 400 ≤ st2 ∧ st2 < 600
    · simp [hc] at h
    · simp [hc] at h
      exact ⟨reply, st2, c, rfl, rfl, hc, h.symm⟩

theorem resolveUtterance_success {cfg : Config} {req : TalkRequest} {dep : Deps}
    {ut cv : Option String} {tr : Trace} {r : Response}
    (h : (resolveUtterance cfg req dep ut cv tr).1 = .ok r) :
    ∃ ut2 tr2, (pipeline cfg dep ut2 cv tr2).1 = .ok r := by
  unfold resolveUtterance at h
  cases haud : req.audio with
  | none =>
    rw [haud] at h
    rcases ut with _ | t
    · exact ⟨_, _, h⟩
    · exact ⟨_, _, h⟩
  | some a =>
    rw [haud] at h
    by_cases htr : pyTruthyOpt ut = true
    · rw [if_pos htr] at h
      exact ⟨_, _, h⟩
    · rw [if_neg htr] at h
      rcases hstt : dep.stt with w | _ <;> simp [stt_local, hstt] at h
      exact ⟨_, _, h⟩

/-- Claim C1: every successful /talk response is the JSON envelope with
exactly the four fields request_id, text, audio_base64 and
audio_format, where text is the reply adapter's answer, audio_base64 is
the base64 encoding of the synthesis adapter's bytes, and audio_format
is "mp3". -/
theorem talk_success_envelope (cfg : Config) (req : TalkRequest) (dep : Deps)
    (body : List (String × String))
    (h : (talk cfg req dep).1 = .success body) :
    ∃ reply st mp3, dep.llm = .ok reply ∧ dep.tts = .response st mp3 ∧
      ¬(400 ≤ st ∧ st < 600) ∧
      body = [("request_id", dep.requestId), ("text", reply),
              ("audio_base64", base64encode mp3), ("audio_format", "mp3")] := by
  have h1 : mapErr (talkRun cfg req dep).1 = .success body := h
  have h2 : (talkRun cfg req dep).1 = .ok (.success body) := mapErr_success h1
  unfold talkRun at h2
  rcases hn : normalizeInput req with e | ⟨ut, cv, fl, fsp⟩ <;> rw [hn] at h2
  · simp at h2
  · simp only at h2
    rcases resolveUtterance_success h2 with ⟨ut2, tr2, hp⟩
    rcases pipeline_success hp with ⟨reply, st, mp3, hl, ht, hc, hr⟩
    exact ⟨reply, st, mp3, hl, ht, hc, by injection hr⟩

/-- Claim C1 witness: the stubbed scenario of the spec, reply
"Hi there!" and audio bytes 1,2, produces exactly that envelope. -/
theorem talk_success_envelope_witness :
    ∃ reply st mp3, sampleDepOk.llm = .ok reply ∧ sampleDepOk.tts = .response st mp3 ∧
      ¬(400 ≤ st ∧ st < 600) ∧
      [("request_id", "abcd1234"), ("text", "Hi there!"),
       ("audio_base64", "AQI="), ("audio_format", "mp3")] =
        [("request_id", sampleDepOk.requestId), ("text", reply),
         ("audio_base64", base64encode mp3), ("audio_format", "mp3")] :=
  talk_success_envelope sampleCfg sampleReqJsonHello sampleDepOk
    [("request_id", "abcd1234"), ("text", "Hi there!"),
     ("audio_base64", "AQI="), ("audio_format", "mp3")] (by decide)
theorem pipeline_trace_tmpCreated (cfg : Config) (dep : Deps) (ut cv : Option String)
    (tr : Trace) : (pipeline cfg dep ut cv tr).2.tmpCreated = tr.tmpCreated := by
  unfold pipeline
  split
  · rfl
  · rcases hllm : dep.llm with reply | st | _ | _ <;> simp [ask_llm, hllm]
    rcases htts : dep.tts with ⟨st2, c⟩ | _ | _ <;> simp [tts_elevenlabs, htts]
    by_cases hc : 400 ≤ st2 ∧ st2 < 600 <;> simp [hc]

/-- Claim C7: the temporary audio file is handled by the finally-block
on every path: deletion is attempted exactly when a temp file was
created, every handled request carrying an audio upload creates one,
and whether os.remove succeeds has no effect on the response (a failed
deletion is only logged). -/
theorem temp_file_always_removed (cfg : Config) (req : TalkRequest) (dep : Deps) :
    (talk cfg req dep).2.tmpRemoveAttempted = (talk cfg req dep).2.tmpCreated ∧
    (∀ q a, normalizeInput req = .ok q → req.audio = some a →
      (talk cfg req dep).2.tmpCreated = true) ∧
    (∀ b, (talk cfg req { dep with removeOk := b }).1 = (talk cfg req dep).1) := by
  refine ⟨rfl, ?_, ?_⟩
  · intro q a hn ha
    rcases q with ⟨ut, cv, fl, fsp⟩
    by_cases htr : pyTruthyOpt ut = true <;>
    rcases hstt : dep.stt with w | _ <;>
    simp [talk, talkRun, hn, resolveUtterance, ha, htr, stt_local, hstt,
          pipeline_trace_tmpCreated]
  · intro b
    cases dep with
    | mk s l t ro rid => rfl

/-- Claim C7 witness: an audio-only multipart request creates the temp
file, so deletion is attempted for it. -/
theorem temp_file_always_removed_witness :
    (talk sampleCfg sampleReqMultipartAudioOnly sampleDepOk).2.tmpCreated = true :=
  (temp_file_always_removed sampleCfg sampleReqMultipartAudioOnly sampleDepOk).2.1
    (none, none, none, none) sampleAudio rfl rfl

/-- Claim C4 counterexample: with the reply adapter timing out on a
plain JSON text request, the handler answers 500 with the generic
detail "Internal server error", not 504 with a timeout message: timeout
exceptions are not requests.HTTPError values, so only the catch-all
clause sees them. -/
theorem reply_timeout_counterexample :
    (talk sampleCfg sampleReqJsonHello sampleDepLlmTimeout).1 =
      .error 500 "Internal server error" ∧
    (talk sampleCfg sampleReqJsonHello sampleDepLlmTimeout).1.status ≠ 504 :=
  ⟨by decide, by decide⟩

/-- Claim C4 amended: a dependency call that fails with a timeout
exception is caught by the catch-all clause and mapped to status 500
with the generic detail "Internal server error" (the handler has no 504
mapping and the detail does not mention the timeout), and the synthesis
adapter is never invoked when the reply stage timed out. -/
theorem timeout_maps_to_500 (cfg : Config) (req : TalkRequest) (dep : Deps)
    (t : String) (cv fl fsp : Option String) (w : Option String)
    (hreach : normalizeInput req = .ok (some t, cv, fl, fsp) ∨
      (normalizeInput req = .ok (none, cv, fl, fsp) ∧ req.audio ≠ none ∧
       dep.stt = .ok w ∧ pyStrip (w.getD "") ≠ "")) :
    (dep.llm = .timeout →
      (talk cfg req dep).1 = .error 500 "Internal server error" ∧
      (talk cfg req dep).2.ttsArgs = none) ∧
    (∀ r, dep.llm = .ok r → dep.tts = .timeout →
      (talk cfg req dep).1 = .error 500 "Internal server error") := by
  rcases hreach with h | ⟨h, haud, hstt, hw⟩
  · have hne : t ≠ "" := normalizeInput_ut_ne_empty h
    constructor
    · intro hllm
      rcases haud : req.audio with _ | a <;>
      simp [talk, talkRun, h, resolveUtterance, haud, pipeline, pyTruthyOpt, hne,
            ask_llm, hllm, mapErr, initTrace]
    · intro r hllm htts
      rcases haud : req.audio with _ | a <;>
      simp [talk, talkRun, h, resolveUtterance, haud, pipeline, pyTruthyOpt, hne,
            ask_llm, hllm, tts_elevenlabs, htts, mapErr, initTrace]
  · rcases ha : req.audio with _ | a
    · exact absurd ha haud
    · constructor
      · intro hllm
        simp [talk, talkRun, h, resolveUtterance, ha, stt_local, hstt, pipeline,
              pyTruthyOpt, hw, ask_llm, hllm, mapErr, initTrace]
      · intro r hllm htts
        simp [talk, talkRun, h, resolveUtterance, ha, stt_local, hstt, pipeline,
              pyTruthyOpt, hw, ask_llm, hllm, tts_elevenlabs, htts, mapErr, initTrace]

/-- Claim C4 amended witness: the timeout scenario at the concrete JSON
request is answered 500 and never reaches synthesis. -/
theorem timeout_maps_to_500_witness :
    (talk sampleCfg sampleReqJsonHello sampleDepLlmTimeout).1 =
      .error 500 "Internal server error" ∧
    (talk sampleCfg sampleReqJsonHello sampleDepLlmTimeout).2.ttsArgs = none :=
  (timeout_maps_to_500 sampleCfg sampleReqJsonHello sampleDepLlmTimeout
    "Hello" none none none none (Or.inl rfl)).1 rfl
theorem normalizeInput_error_shape {req : TalkRequest} {e : PyErr}
    (h : normalizeInput req = .error e) :
    e = .httpException 415 "Unsupported content type" ∧
    contentTypeOf req ≠ "" ∧
    containsSubstr (contentTypeOf req) "application/json" = false ∧
    containsSubstr (contentTypeOf req) "multipart/form-data" = false := by
  have h1 : containsSubstr (contentTypeOf req) "application/json" = false := by
    by_contra hc
    rw [Bool.not_eq_false] at hc
    simp [normalizeInput, hc] at h
  have h2 : containsSubstr (contentTypeOf req) "multipart/form-data" = false := by
    by_contra hc
    rw [Bool.not_eq_false] at hc
    simp [normalizeInput, h1, hc] at h
  have h3 : contentTypeOf req ≠ "" := by
    intro hc
    rw [hc] at h1 h2
    simp [normalizeInput, hc, h1, h2] at h
  refine ⟨?_, h3, h1, h2⟩
  simp [normalizeInput, h1, h2, h3] at h
  exact h.symm

theorem normalizeInput_of_unsupported {req : TalkRequest}
    (h1 : contentTypeOf req ≠ "")
    (h2 : containsSubstr (contentTypeOf req) "application/json" = false)
    (h3 : containsSubstr (contentTypeOf req) "multipart/form-data" = false) :
    normalizeInput req = .error (.httpException 415 "Unsupported content type") := by
  simp [normalizeInput, h1, h2, h3]

theorem talkRun_success {cfg : Config} {req : TalkRequest} {dep : Deps}
    {q : Option String × Option String × Option String × Option String} {r : Response}
    (hn : normalizeInput req = .ok q)
    (h : (talkRun cfg req dep).1 = .ok r) : ∃ body, r = .success body := by
  rcases q with ⟨ut, cv, fl, fsp⟩
  unfold talkRun at h
  rw [hn] at h
  simp only at h
  rcases resolveUtterance_success h with ⟨ut2, tr2, hp⟩
  rcases pipeline_success hp with ⟨reply, st, mp3, _, _, _, hr⟩
  exact ⟨_, hr⟩

theorem talkRun_httpException_shape {cfg : Config} {req : TalkRequest} {dep : Deps}
    {q : Option String × Option String × Option String × Option String}
    {st : Nat} {d : String}
    (hn : normalizeInput req = .ok q)
    (h : (talkRun cfg req dep).1 = .error (.httpException st d)) :
    (st = 400 ∧ d = "Provide either text or audio input") ∨
    (400 ≤ st ∧ st < 600 ∧ d = "ElevenLabs error: " ++ toString st) := by
  rcases q with ⟨ut, cv, fl, fsp⟩
  unfold talkRun at h
  rw [hn] at h
  simp only at h
  have hp : ∃ ut2 tr2, (pipeline cfg dep ut2 cv tr2).1 = .error (.httpException st d) := by
    unfold resolveUtterance at h
    cases haud : req.audio with
    | none =>
      rw [haud] at h
      rcases ut with _ | t2
      · exact ⟨_, _, h⟩
      · exact ⟨_, _, h⟩
    | some a =>
      rw [haud] at h
      by_cases htr : pyTruthyOpt ut = true
      · rw [if_pos htr] at h
        exact ⟨_, _, h⟩
      · rw [if_neg htr] at h
        rcases hstt : dep.stt with w | _ <;> simp [stt_local, hstt] at h
        exact ⟨_, _, h⟩
  rcases hp with ⟨ut2, tr2, hp⟩
  unfold pipeline at hp
  split at hp
  · simp at hp
    exact Or.inl ⟨hp.1.symm, hp.2.symm⟩
  · rcases hllm : dep.llm with reply | st3 | _ | _ <;> simp [ask_llm, hllm] at hp
    rcases htts : dep.tts with ⟨st2, c⟩ | _ | _ <;> simp [tts_elevenlabs, htts] at hp
    by_cases hc : 400 ≤ st2 ∧ st2 < 600
    · simp [hc] at hp
      refine Or.inr ⟨hp.1 ▸ hc.1, hp.1 ▸ hc.2, ?_⟩
      rw [← hp.1]
      exact hp.2.symm
    · simp [hc] at hp

/-- Claim C5 counterexample: an application/x-www-form-urlencoded
request with the usual field names is not accepted and processed: the
handler answers 415, because only JSON and multipart content types are
dispatched before the unsupported-type check. -/
theorem form_urlencoded_rejected_counterexample :
    (talk sampleCfg sampleReqFormUrlencoded sampleDepOk).1 =
      .error 415 "Unsupported content type" := by decide

/-- Claim C5 amended: the handler fails with 415 Unsupported content
type exactly when the content-type header is non-empty and contains
neither application/json nor multipart/form-data; in particular
application/x-www-form-urlencoded is rejected with 415 and an absent
content type is not rejected. -/
theorem unsupported_media_type_iff (cfg : Config) (req : TalkRequest) (dep : Deps) :
    (talk cfg req dep).1 = .error 415 "Unsupported content type" ↔
      (contentTypeOf req ≠ "" ∧
       containsSubstr (contentTypeOf req) "application/json" = false ∧
       containsSubstr (contentTypeOf req) "multipart/form-data" = false) := by
  constructor
  · intro h
    rcases hn : normalizeInput req with e | q
    · have hs := normalizeInput_error_shape hn
      exact ⟨hs.2.1, hs.2.2.1, hs.2.2.2⟩
    · exfalso
      have h1 : mapErr (talkRun cfg req dep).1 = .error 415 "Unsupported content type" := h
      rcases hx : (talkRun cfg req dep).1 with e | r
      · rw [hx] at h1
        cases e with
        | httpException st d =>
          simp [mapErr] at h1
          obtain ⟨hst, hdet⟩ := h1
          subst hst
          rcases talkRun_httpException_shape hn hx with ⟨h400, _⟩ | ⟨_, _, hd⟩
          · exact absurd h400 (by decide)
          · rw [hdet] at hd
            revert hd
            decide
        | requestsHttpError st =>
          rcases st with _ | n
          · simp [mapErr, effStatus, upstreamDetail] at h1
          · by_cases h0 : n = 0
            · simp [mapErr, effStatus, h0] at h1
            · simp [mapErr, effStatus, h0, upstreamDetail] at h1
              obtain ⟨hn415, hdd⟩ := h1
              subst hn415
              revert hdd
              decide
        | timeoutErr => simp [mapErr] at h1
        | otherExn => simp [mapErr] at h1
      · rw [hx] at h1
        simp [mapErr] at h1
        rcases talkRun_success hn hx with ⟨body, hb⟩
        rw [hb] at h1
        simp at h1
  · intro hcond
    have hn := normalizeInput_of_unsupported hcond.1 hcond.2.1 hcond.2.2
    simp [talk, talkRun, hn, mapErr]
theorem talk_tts_upstream (cfg : Config) (req : TalkRequest) (dep : Deps)
    (t r : String) (cv fl fsp : Option String) (st : Nat) (c : List Nat)
    (hn : normalizeInput req = .ok (some t, cv, fl, fsp))
    (hllm : dep.llm = .ok r) (htts : dep.tts = .response st c)
    (h4 : 400 ≤ st) (h6 : st < 600) :
    (talk cfg req dep).1 = .error st ("ElevenLabs error: " ++ toString st) := by
  have hne : t ≠ "" := normalizeInput_ut_ne_empty hn
  rcases haud : req.audio with _ | a <;>
  simp [talk, talkRun, hn, resolveUtterance, haud, pipeline, pyTruthyOpt, hne,
        ask_llm, hllm, tts_elevenlabs, htts, h4, h6, mapErr, initTrace]

/-- Claim C9: a dependency failure that is not a timeout and carries an
upstream HTTP status is answered with that upstream status (with 502 as
the fallback when the error has no response status), and the dependency
exception itself never reaches the caller: the error is re-raised as a
structured status/detail response. -/
theorem upstream_status_forwarded (cfg : Config) (req : TalkRequest) (dep : Deps)
    (t : String) (cv fl fsp : Option String)
    (h : normalizeInput req = .ok (some t, cv, fl, fsp)) :
    (∀ n, n ≠ 0 → dep.llm = .httpError (some n) →
      (talk cfg req dep).1 = .error n (upstreamDetail (some n))) ∧
    (dep.llm = .httpError none →
      (talk cfg req dep).1 = .error 502 (upstreamDetail none)) ∧
    (∀ r st c, dep.llm = .ok r → dep.tts = .response st c → 400 ≤ st → st < 600 →
      (talk cfg req dep).1 = .error st ("ElevenLabs error: " ++ toString st)) := by
  have hne : t ≠ "" := normalizeInput_ut_ne_empty h
  refine ⟨?_, ?_, ?_⟩
  · intro n hn0 hllm
    rcases haud : req.audio with _ | a <;>
    simp [talk, talkRun, h, resolveUtterance, haud, pipeline, pyTruthyOpt, hne,
          ask_llm, hllm, mapErr, effStatus, hn0, initTrace]
  · intro hllm
    rcases haud : req.audio with _ | a <;>
    simp [talk, talkRun, h, resolveUtterance, haud, pipeline, pyTruthyOpt, hne,
          ask_llm, hllm, mapErr, effStatus, initTrace]
  · intro r st c hllm htts h4 h6
    exact talk_tts_upstream cfg req dep t r cv fl fsp st c h hllm htts h4 h6

/-- Claim C9 witness: a reply-stage HTTPError with no response status
is forwarded as a 502. -/
theorem upstream_status_forwarded_witness :
    (talk sampleCfg sampleReqJsonHello sampleDepLlm502).1 =
      .error 502 (upstreamDetail none) :=
  (upstream_status_forwarded sampleCfg sampleReqJsonHello sampleDepLlm502
    "Hello" none none none rfl).2.1 rfl

/-- Claim C6 counterexample: with the ElevenLabs key absent from the
environment, a request that needs synthesis does not fail with 503: the
call is still made (with an empty key header) and the upstream 401
rejection status is what the caller receives. -/
theorem missing_tts_key_counterexample :
    sampleCfgNoTtsKey.elevenKey = none ∧
    (talk sampleCfgNoTtsKey sampleReqJsonHello sampleDepTts401).1.status = 401 ∧
    (talk sampleCfgNoTtsKey sampleReqJsonHello sampleDepTts401).1.status ≠ 503 :=
  ⟨by decide, by decide, by decide⟩

/-- Claim C6 amended: a missing speech-synthesis credential never stops
startup (the startup function is total and only records a warning), and
the affected stage still fails at request time, with the upstream
rejection status forwarded to the caller rather than a local 503. -/
theorem missing_tts_key_request_time_failure (hfEnv voiceEnv : Option String)
    (req : TalkRequest) (dep : Deps) (t r : String) (cv fl fsp : Option String)
    (st : Nat) (c : List Nat)
    (hn : normalizeInput req = .ok (some t, cv, fl, fsp))
    (hllm : dep.llm = .ok r) (htts : dep.tts = .response st c)
    (h4 : 400 ≤ st) (h6 : st < 600) :
    "ELEVENLABS_API_KEY missing; TTS will fail" ∈
      startupWarnings (startup hfEnv none voiceEnv) ∧
    (talk (startup hfEnv none voiceEnv) req dep).1 =
      .error st ("ElevenLabs error: " ++ toString st) := by
  constructor
  · simp [startupWarnings, startup, ensureEnv]
  · exact talk_tts_upstream (startup hfEnv none voiceEnv) req dep
      t r cv fl fsp st c hn hllm htts h4 h6

/-- Claim C6 amended witness: with the key absent, the concrete JSON
request yields the startup warning and the forwarded 401. -/
theorem missing_tts_key_request_time_failure_witness :
    "ELEVENLABS_API_KEY missing; TTS will fail" ∈
      startupWarnings (startup (some "hf-token") none none) ∧
    (talk (startup (some "hf-token") none none) sampleReqJsonHello sampleDepTts401).1 =
      .error 401 ("ElevenLabs error: " ++ toString 401) :=
  missing_tts_key_request_time_failure (some "hf-token") none sampleReqJsonHello
    sampleDepTts401 "Hello" "Hi there!" none none none 401 [] rfl rfl rfl
    (by decide) (by decide)

/-- Claim C10 counterexample: in a multipart form a whitespace-only
text field is not treated exactly as if it were absent: with fields
text " " and prompt "hello" the request is rejected 400, while the same
form without the text field lets the prompt field drive a successful
reply. -/
theorem whitespace_text_masks_prompt_counterexample :
    (talk sampleCfg sampleReqMultipartWsTextPrompt sampleDepOk).1.status = 400 ∧
    (talk sampleCfg sampleReqMultipartPromptOnly sampleDepOk).1.status = 200 :=
  ⟨by decide, by decide⟩

/-- Claim C10 amended: in JSON bodies a whitespace-only, non-string or
absent field value makes read_body_text yield none alike, so such
fields are treated exactly as absent; in form bodies a whitespace-only
value is discarded after stripping and never supplies an utterance, so
the request falls through to transcription or the 400 missing-input
error, but a whitespace-only text field still shadows a non-empty
prompt field rather than behaving exactly like an absent one. -/
theorem whitespace_fields_normalization :
    (∀ (p : List (String × JVal)) (k s : String),
      p.lookup k = some (.str s) → pyStrip s = "" → read_body_text (some p) k = none) ∧
    (∀ (p : List (String × JVal)) (k : String),
      p.lookup k = some .other → read_body_text (some p) k = none) ∧
    (∀ (p : List (String × JVal)) (k : String),
      p.lookup k = none → read_body_text (some p) k = none) ∧
    (∀ (cfg : Config) (req : TalkRequest) (dep : Deps) (s : String),
      containsSubstr (contentTypeOf req) "application/json" = false →
      containsSubstr (contentTypeOf req) "multipart/form-data" = true →
      req.form.lookup "text" = some s → s ≠ "" → pyStrip s = "" →
      req.audio = none → stripOrNone (req.textParam.getD "") = none →
      (talk cfg req dep).1 = .error 400 "Provide either text or audio input") := by
  refine ⟨?_, ?_, ?_, ?_⟩
  · intro p k s hl hs
    simp [read_body_text, hl, stripOrNone, hs]
  · intro p k hl
    simp [read_body_text, hl]
  · intro p k hl
    simp [read_body_text, hl]
  · intro cfg req dep s hj hm hl hsne hs haud htp
    have hut : stripOrNone
        ((pyOrS (req.form.lookup "text") (req.form.lookup "prompt")).getD "") = none := by
      simp [hl, pyOrS, hsne, stripOrNone, hs]
    simp [talk, talkRun, normalizeInput, hj, hm, hut, resolveUtterance, haud, htp,
          pipeline, pyTruthyOpt, initTrace, mapErr]

/-- Claim C10 amended witness: the whitespace text field of the
multipart sample yields the 400 missing-input error even though a
non-empty prompt field is present. -/
theorem whitespace_fields_normalization_witness :
    (talk sampleCfg sampleReqMultipartWsTextPrompt sampleDepOk).1 =
      .error 400 "Provide either text or audio input" :=
  whitespace_fields_normalization.2.2.2 sampleCfg sampleReqMultipartWsTextPrompt
    sampleDepOk " " (by decide) (by decide) rfl (by decide) (by decide) rfl rfl
